import Mathlib

/-!
Verification of the vue-shadcn-template repository's generic CRUD layers.

Frontend (frontend/src/api/base/client.ts, base.ts): an Effect-based HTTP
client over fetch, and a generic `BaseApiService` that pairs each CRUD
operation with optional schema decoding.

Backend (backend/Api/Extensions/ServiceCollectionExtensions.cs): a generic
`BaseController<T>` mapping each HTTP verb onto one EF Core operation, and
the configuration-reading extension methods.

The embedding models JSON bodies as an inductive `Json` type, the network as
an oracle from requests to fetch outcomes, Effect schemas as decoders
`Json → Except ParseError α`, and the EF-backed store as a list of entities.
-/

/-- JSON values, as produced by `response.json()` and consumed by schemas. -/
inductive Json where
  | null
  | bool (b : Bool)
  | num (n : Int)
  | str (s : String)
  | arr (elems : List Json)
  | obj (fields : List (String × Json))

/-- Error produced by `Schema.decodeUnknown` when a value does not match the
schema (`@effect/schema`'s `ParseError`). It carries a message and no HTTP
status. -/
structure ParseError where
  message : String
deriving DecidableEq, Repr

/-- An Effect schema, embedded as its decoder: `Schema.decodeUnknown(s)`
applied to a JSON value either yields a decoded value or a `ParseError`. -/
structure Schema (α : Type) where
  decode : Json → Except ParseError α

/-- Decode every element of a JSON list under an element schema, failing on
the first element that does not decode. -/
def decodeElems (s : Schema α) : List Json → Except ParseError (List α)
  | [] => Except.ok []
  | x :: xs =>
    match s.decode x, decodeElems s xs with
    | Except.ok a, Except.ok as => Except.ok (a :: as)
    | Except.error e, _ => Except.error e
    | _, Except.error e => Except.error e

/-- The `Schema.Array(schema)` combinator: decodes a JSON array by decoding
each element under the element schema, and fails on any non-array value. -/
def Schema.Array (s : Schema α) : Schema (List α) where
  decode
    | Json.arr xs => decodeElems s xs
    | _ => Except.error ⟨"Expected ReadonlyArray, actual other"⟩

/-- The `ApiError` class of client.ts: a message plus an optional HTTP
status (`status?: number`). The status is present exactly when the error was
constructed from a non-ok HTTP response; an error surfaced from a
network-level rejection of `fetch` has no status. -/
structure ApiError where
  message : String
  status : Option Nat
deriving DecidableEq, Repr

/-- An HTTP request as issued by the client: method, full URL, optional JSON
body. -/
structure Request where
  method : String
  url : String
  body : Option Json

/-- What awaiting `fetch` can produce: a network-level rejection (no
response, hence no status), or an HTTP response with a status, status text
and JSON body. -/
inductive FetchOutcome where
  | networkFailure (msg : String)
  | response (status : Nat) (statusText : String) (body : Json)

/-- The environment: an oracle assigning to each request the outcome of the
single `fetch` call issued for it. -/
def World : Type := Request → FetchOutcome

/-- `response.ok`: status in the range 200–299. -/
def statusOk (s : Nat) : Bool := 200 ≤ s && s < 300

namespace httpClient

/-- The hardcoded base URL constant of client.ts. -/
def BASE_URL : String := "http://localhost:5000/api"

/-- The request issued by `httpClient.get(url)`. -/
def getRequest (url : String) : Request :=
  ⟨"GET", BASE_URL ++ url, none⟩

/-- The request issued by `httpClient.post(url, data)`. -/
def postRequest (url : String) (data : Json) : Request :=
  ⟨"POST", BASE_URL ++ url, some data⟩

/-- The request issued by `httpClient.put(url, data)`. -/
def putRequest (url : String) (data : Json) : Request :=
  ⟨"PUT", BASE_URL ++ url, some data⟩

/-- The request issued by `httpClient.delete(url)`. -/
def deleteRequest (url : String) : Request :=
  ⟨"DELETE", BASE_URL ++ url, none⟩

/-- Shared response handling of the two body-returning verbs: a non-ok
response throws `ApiError` with the response status; a network failure
surfaces without a status; an ok response yields the JSON body. -/
def interpBody (verb : String) (o : FetchOutcome) : Except ApiError Json :=
  match o with
  | FetchOutcome.networkFailure msg => Except.error ⟨msg, none⟩
  | FetchOutcome.response s st body =>
    if statusOk s then Except.ok body
    else Except.error ⟨verb ++ " failed: " ++ st, some s⟩

/-- Shared response handling of the two void verbs: same failure handling,
but an ok response discards the body and yields unit. -/
def interpVoid (verb : String) (o : FetchOutcome) : Except ApiError Unit :=
  match o with
  | FetchOutcome.networkFailure msg => Except.error ⟨msg, none⟩
  | FetchOutcome.response s st _ =>
    if statusOk s then Except.ok ()
    else Except.error ⟨verb ++ " failed: " ++ st, some s⟩

/-- `httpClient.get`: issues one GET request and returns the JSON body of an
ok response, or fails with `ApiError`. The first component is the list of
HTTP requests issued. -/
def get (world : World) (url : String) : List Request × Except ApiError Json :=
  ([getRequest url], interpBody "GET" (world (getRequest url)))

/-- `httpClient.post`: issues one POST request with a JSON body. -/
def post (world : World) (url : String) (data : Json) :
    List Request × Except ApiError Json :=
  ([postRequest url data], interpBody "POST" (world (postRequest url data)))

/-- `httpClient.put`: issues one PUT request; an ok response yields void. -/
def put (world : World) (url : String) (data : Json) :
    List Request × Except ApiError Unit :=
  ([putRequest url data], interpVoid "PUT" (world (putRequest url data)))

/-- `httpClient.delete`: issues one DELETE request; an ok response yields
void. -/
def delete (world : World) (url : String) :
    List Request × Except ApiError Unit :=
  ([deleteRequest url], interpVoid "DELETE" (world (deleteRequest url)))

end httpClient

/-- The failure channel of the schema-decoding operations of
`BaseApiService`: either an `ApiError` from the HTTP layer or a `ParseError`
from schema decoding. -/
inductive ClientError where
  | api (e : ApiError)
  | parse (e : ParseError)
deriving DecidableEq, Repr

/-- The generic typed REST client of base.ts, parameterized over an entity
type. The constructor stores the endpoint, the entity schema, and
`Schema.Array(schema)` as the array schema. -/
structure BaseApiService (T : Type) where
  endpoint : String
  schema : Schema T
  arraySchema : Schema (List T)

/-- The constructor of `BaseApiService`: `this.arraySchema =
Schema.Array(schema)`. -/
def BaseApiService.make (endpoint : String) (schema : Schema T) :
    BaseApiService T :=
  ⟨endpoint, schema, Schema.Array schema⟩

namespace BaseApiService

/-- Pipe an HTTP-layer result into a schema decoder
(`Effect.andThen(Schema.decodeUnknown(s))`). -/
def decodeStep (s : Schema α) : Except ApiError Json → Except ClientError α
  | Except.error e => Except.error (ClientError.api e)
  | Except.ok body =>
    match s.decode body with
    | Except.error p => Except.error (ClientError.parse p)
    | Except.ok v => Except.ok v

/-- `getAll()`: GET `/{endpoint}`, then decode the body under the array
schema. -/
def getAll (svc : BaseApiService T) (world : World) :
    List Request × Except ClientError (List T) :=
  let r := httpClient.get world ("/" ++ svc.endpoint)
  (r.1, decodeStep svc.arraySchema r.2)

/-- `getById(id)`: GET `/{endpoint}/{id}`, then decode the body under the
entity schema. -/
def getById (svc : BaseApiService T) (world : World) (id : Int) :
    List Request × Except ClientError T :=
  let r := httpClient.get world ("/" ++ svc.endpoint ++ "/" ++ toString id)
  (r.1, decodeStep svc.schema r.2)

/-- `create(entity)`: POST `/{endpoint}` with the entity as JSON body, then
decode the response body under the entity schema. -/
def create (svc : BaseApiService T) (world : World) (entityJson : Json) :
    List Request × Except ClientError T :=
  let r := httpClient.post world ("/" ++ svc.endpoint) entityJson
  (r.1, decodeStep svc.schema r.2)

/-- `update(id, entity)`: PUT `/{endpoint}/{id}`; no schema decoding, void
on success. Its failure channel is `ApiError` only. -/
def update (svc : BaseApiService T) (world : World) (id : Int)
    (entityJson : Json) : List Request × Except ApiError Unit :=
  httpClient.put world ("/" ++ svc.endpoint ++ "/" ++ toString id) entityJson

/-- `delete(id)`: DELETE `/{endpoint}/{id}`; no schema decoding, void on
success. -/
def delete (svc : BaseApiService T) (world : World) (id : Int) :
    List Request × Except ApiError Unit :=
  httpClient.delete world ("/" ++ svc.endpoint ++ "/" ++ toString id)

end BaseApiService

/-! ## Backend: the generic `BaseController<T>` over an EF Core store -/

/-- Modelled from the spec: the `BaseEntity` base class (backend
`Models/BaseEntity.cs` is not among the provided sources). Per the spec,
every persisted record has a numeric identifier and a creation timestamp,
with remaining fields plain record attributes (abstracted into one payload
string). The controller itself only reads `Id`. -/
structure BaseEntity where
  id : Int
  createdAt : Int
  payload : String
deriving DecidableEq, Repr

/-- The database table for one entity type, as seen through
`DbSet<T>`/SQLite: a list of rows keyed by `Id`. -/
abbrev Db : Type := List BaseEntity

/-- `_dbSet.FindAsync(id)`: look up a row by primary key. -/
def findById (db : Db) (id : Int) : Option BaseEntity :=
  List.find? (fun e => e.id = id) db

/-- `EntityExists(id)`, i.e. `_dbSet.Any(e => e.Id == id)`. -/
def entityExists (db : Db) (id : Int) : Bool :=
  List.any db (fun e => e.id = id)

/-- The key SQLite generates for an inserted row whose `Id` is unset:
one more than the largest key in the table (1 on an empty table). -/
def nextId (db : Db) : Int :=
  List.foldr (fun e m => max e.id m) 0 db + 1

/-- The UPDATE statement EF Core issues for an entity marked Modified:
overwrite every column of the row whose key matches. -/
def updateRow (db : Db) (e : BaseEntity) : Db :=
  List.map (fun x => if x.id = e.id then e else x) db

/-- The DELETE statement EF Core issues for a removed entity: drop the row
with the matching key. -/
def deleteRow (db : Db) (id : Int) : Db :=
  List.filter (fun x => !(x.id = id : Bool)) db

/-- Outcome of `ActionResult` values the controller produces, plus the
propagated-exception case (`throw;` / a database error escaping the
action). An exception is not a controller response; the framework turns it
into an error response outside the controller. -/
inductive ApiResult (α : Type) where
  | ok (v : α)
  | created (location : String) (v : α)
  | noContent
  | badRequest
  | notFound
  | unhandledException (what : String)
deriving Repr

/-- The HTTP status of a controller-produced response; `none` for an
exception that escapes the action. -/
def ApiResult.statusCode : ApiResult α → Option Nat
  | ApiResult.ok _ => some 200
  | ApiResult.created _ _ => some 201
  | ApiResult.noContent => some 204
  | ApiResult.badRequest => some 400
  | ApiResult.notFound => some 404
  | ApiResult.unhandledException _ => none

/-- One controller action's effect: the result sent back, the table
afterwards, how many times `SaveChangesAsync` was invoked, and how many
entities were marked `EntityState.Modified`. -/
structure ControllerStep (α : Type) where
  result : ApiResult α
  db : Db
  saves : Nat
  marksModified : Nat

/-- Whether `SaveChangesAsync` succeeds or throws
`DbUpdateConcurrencyException`. The exception is raised by EF Core when the
UPDATE affects no row — the row was concurrently deleted, or an optimistic
concurrency token no longer matches — so it is an environment input, not a
function of the table snapshot alone. -/
inductive SaveOutcome where
  | success
  | concurrencyConflict
deriving DecidableEq, Repr

namespace BaseController

/-- `GetAll()`: return every row, status 200. -/
def getAll (db : Db) : ControllerStep (List BaseEntity) :=
  ⟨ApiResult.ok db, db, 0, 0⟩

/-- `Get(id)`: `FindAsync`, `NotFound()` when absent, otherwise the entity
(200). -/
def getById (db : Db) (id : Int) : ControllerStep BaseEntity :=
  match findById db id with
  | none => ⟨ApiResult.notFound, db, 0, 0⟩
  | some e => ⟨ApiResult.ok e, db, 0, 0⟩

/-- `Post(entity)`: `_dbSet.Add`, save, then `CreatedAtAction(nameof(Get),
new { id = entity.Id }, entity)`. An unset (zero) `Id` receives the
generated key; inserting an explicit key that already exists makes the
INSERT throw a constraint violation, which escapes the action. -/
def post (db : Db) (e : BaseEntity) : ControllerStep BaseEntity :=
  let storedId := if e.id = 0 then nextId db else e.id
  let stored : BaseEntity := { e with id := storedId }
  if entityExists db storedId then
    ⟨ApiResult.unhandledException "UNIQUE constraint failed", db, 1, 0⟩
  else
    ⟨ApiResult.created ("Get " ++ toString storedId) stored,
      db ++ [stored], 1, 0⟩

/-- `Put(id, entity)`: `BadRequest()` on a route/body id mismatch before
touching the change tracker; otherwise mark Modified and save, catching
`DbUpdateConcurrencyException`: `NotFound()` when the entity no longer
exists, and `throw;` (the exception propagates unhandled) when it does. -/
def put (db : Db) (id : Int) (e : BaseEntity) (save : SaveOutcome) :
    ControllerStep Unit :=
  if id ≠ e.id then
    ⟨ApiResult.badRequest, db, 0, 0⟩
  else
    match save with
    | SaveOutcome.success => ⟨ApiResult.noContent, updateRow db e, 1, 1⟩
    | SaveOutcome.concurrencyConflict =>
      if entityExists db id then
        ⟨ApiResult.unhandledException "DbUpdateConcurrencyException", db, 1, 1⟩
      else
        ⟨ApiResult.notFound, db, 1, 1⟩

/-- `Delete(id)`: `FindAsync`, `NotFound()` when absent (no save);
otherwise `Remove` and save, then `NoContent()`. -/
def delete (db : Db) (id : Int) : ControllerStep Unit :=
  match findById db id with
  | none => ⟨ApiResult.notFound, db, 0, 0⟩
  | some _ => ⟨ApiResult.noContent, deleteRow db id, 1, 0⟩

end BaseController

/-! ## Backend configuration (ServiceCollectionExtensions, client.ts) -/

/-- An `IConfiguration`: a partial map from configuration keys to values,
populated from appsettings files and environment variables. -/
def Configuration : Type := String → Option String

/-- `AddDatabaseConfiguration`: the connection string is
`configuration.GetConnectionString("DefaultConnection")` with the fallback
`"Data Source=budget.db"`. -/
def getConnectionString (cfg : Configuration) : String :=
  (cfg "ConnectionStrings:DefaultConnection").getD "Data Source=budget.db"

/-- `AddCorsConfiguration`: the allowed origin is
`configuration.GetValue<string>("FrontendUrl")` with the fallback
`"http://localhost:5173"`. -/
def getFrontendUrl (cfg : Configuration) : String :=
  (cfg "FrontendUrl").getD "http://localhost:5173"

/-- The frontend client's base URL as a function of the environment: the
source assigns the literal `'http://localhost:5000/api'` to `BASE_URL` and
consults no configuration or environment value. -/
def frontendBaseUrl (_cfg : Configuration) : String :=
  "http://localhost:5000/api"

/-! ## Concrete instances used by witnesses and counterexamples -/

/-- A sample entity schema: decodes a JSON number. -/
def intSchema : Schema Int where
  decode
    | Json.num n => Except.ok n
    | _ => Except.error ⟨"Expected number, actual other"⟩

/-- A sample resource client over the `items` endpoint. -/
def itemsSvc : BaseApiService Int := BaseApiService.make "items" intSchema

/-- A world in which every fetch call rejects at the network level (the
server is unreachable), so no HTTP response and no status exists. -/
def downWorld : World := fun _ => FetchOutcome.networkFailure "Failed to fetch"

/-- A world in which every fetch call yields a 404 response with a null
body. -/
def err404World : World := fun _ => FetchOutcome.response 404 "Not Found" Json.null

/-- A world in which every fetch call yields a 200 response whose body is
the JSON array `[7]`. -/
def okArrayWorld : World := fun _ =>
  FetchOutcome.response 200 "OK" (Json.arr [Json.num 7])

/-- A world in which every fetch call yields a 200 response whose body is a
JSON string (matching no schema used here). -/
def okStrWorld : World := fun _ =>
  FetchOutcome.response 200 "OK" (Json.str "nope")

/-- An empty configuration: no key is set. -/
def emptyCfg : Configuration := fun _ => none

/-- A configuration assigning the same URL to every key. -/
def overrideCfg : Configuration := fun _ => some "http://example.com/api"

/-! ## C1 -/

/-- Helper: a non-ok response makes the body-returning interpreter fail with
the response's status. -/
theorem interpBody_notOk (verb st : String) (s : Nat) (b : Json)
    (h : statusOk s = false) :
    httpClient.interpBody verb (FetchOutcome.response s st b) =
      Except.error ⟨verb ++ " failed: " ++ st, some s⟩ := by
  simp [httpClient.interpBody, h]

/-- Helper: a non-ok response makes the void interpreter fail with the
response's status. -/
theorem interpVoid_notOk (verb st : String) (s : Nat) (b : Json)
    (h : statusOk s = false) :
    httpClient.interpVoid verb (FetchOutcome.response s st b) =
      Except.error ⟨verb ++ " failed: " ++ st, some s⟩ := by
  simp [httpClient.interpVoid, h]

/-- C1 counterexample: the claim says no operation can fail with an error
lacking a status, network-level failures included. Against a world where
fetch rejects at the network level, `getAll` fails with an error whose
`status` field is `none`: the `ApiError` status is only populated from
`response.status`, which does not exist when fetch itself rejects. -/
theorem C1_counterexample :
    (itemsSvc.getAll downWorld).2 =
      Except.error (ClientError.api ⟨"Failed to fetch", none⟩) ∧
    (ApiError.status ⟨"Failed to fetch", none⟩).isNone = true := by
  exact ⟨rfl, rfl⟩

/-- C1 amended: each of the five operations issues exactly one HTTP request
to the configured resource path, and whenever that request yields an HTTP
response with a non-ok status, the operation fails with an `ApiError`
carrying that response's status and a message. Network-level failures
surface with no status, and decode failures surface as `ParseError` (see
C5), so the typed-status guarantee holds only for failures that stem from
an actual HTTP response. -/
theorem C1_amended {T : Type} (svc : BaseApiService T) (world : World)
    (id : Int) (payload : Json) :
    ((svc.getAll world).1 = [httpClient.getRequest ("/" ++ svc.endpoint)] ∧
     (svc.getById world id).1 =
       [httpClient.getRequest ("/" ++ svc.endpoint ++ "/" ++ toString id)] ∧
     (svc.create world payload).1 =
       [httpClient.postRequest ("/" ++ svc.endpoint) payload] ∧
     (svc.update world id payload).1 =
       [httpClient.putRequest ("/" ++ svc.endpoint ++ "/" ++ toString id) payload] ∧
     (svc.delete world id).1 =
       [httpClient.deleteRequest ("/" ++ svc.endpoint ++ "/" ++ toString id)]) ∧
    (∀ s st b, statusOk s = false →
      (world (httpClient.getRequest ("/" ++ svc.endpoint)) =
          FetchOutcome.response s st b →
        (svc.getAll world).2 =
          Except.error (ClientError.api ⟨"GET failed: " ++ st, some s⟩)) ∧
      (world (httpClient.getRequest ("/" ++ svc.endpoint ++ "/" ++ toString id)) =
          FetchOutcome.response s st b →
        (svc.getById world id).2 =
          Except.error (ClientError.api ⟨"GET failed: " ++ st, some s⟩)) ∧
      (world (httpClient.postRequest ("/" ++ svc.endpoint) payload) =
          FetchOutcome.response s st b →
        (svc.create world payload).2 =
          Except.error (ClientError.api ⟨"POST failed: " ++ st, some s⟩)) ∧
      (world (httpClient.putRequest ("/" ++ svc.endpoint ++ "/" ++ toString id)
            payload) = FetchOutcome.response s st b →
        (svc.update world id payload).2 =
          Except.error ⟨"PUT failed: " ++ st, some s⟩) ∧
      (world (httpClient.deleteRequest ("/" ++ svc.endpoint ++ "/" ++ toString id)) =
          FetchOutcome.response s st b →
        (svc.delete world id).2 =
          Except.error ⟨"DELETE failed: " ++ st, some s⟩)) := by
  refine ⟨⟨rfl, rfl, rfl, rfl, rfl⟩, ?_⟩
  intro s st b hs
  refine ⟨?_, ?_, ?_, ?_, ?_⟩ <;> intro hw
  · simp [BaseApiService.getAll, httpClient.get, hw, interpBody_notOk _ _ _ _ hs,
      BaseApiService.decodeStep]
  · simp [BaseApiService.getById, httpClient.get, hw, interpBody_notOk _ _ _ _ hs,
      BaseApiService.decodeStep]
  · simp [BaseApiService.create, httpClient.post, hw, interpBody_notOk _ _ _ _ hs,
      BaseApiService.decodeStep]
  · simp [BaseApiService.update, httpClient.put, hw, interpVoid_notOk _ _ _ _ hs]
  · simp [BaseApiService.delete, httpClient.delete, hw, interpVoid_notOk _ _ _ _ hs]

/-- C1 amended, witnessed at the `items` client against a world answering
404 to every request. -/
theorem C1_amended_witness :
    (itemsSvc.getAll err404World).2 =
      Except.error (ClientError.api ⟨"GET failed: Not Found", some 404⟩) :=
  (((C1_amended itemsSvc err404World 1 Json.null).2 404 "Not Found" Json.null
    (by decide)).1 rfl)

/-! ## C5 -/

/-- Helper: an ok response makes the body-returning interpreter yield the
body. -/
theorem interpBody_ok (verb st : String) (s : Nat) (b : Json)
    (h : statusOk s = true) :
    httpClient.interpBody verb (FetchOutcome.response s st b) = Except.ok b := by
  simp [httpClient.interpBody, h]

/-- C5: for `getAll`, `getById` and `create`, when the fetch yields an ok
HTTP response, a body that fails the configured schema makes the operation
fail with that `ParseError` (no undecoded value is returned), and a body
that decodes makes the operation return the decoded value. -/
theorem C5_schema_decoding {T : Type} (svc : BaseApiService T) (world : World)
    (id : Int) (payload : Json) (s : Nat) (st : String) (b : Json)
    (hok : statusOk s = true) :
    (world (httpClient.getRequest ("/" ++ svc.endpoint)) =
        FetchOutcome.response s st b →
      (∀ p, svc.arraySchema.decode b = Except.error p →
        (svc.getAll world).2 = Except.error (ClientError.parse p)) ∧
      (∀ v, svc.arraySchema.decode b = Except.ok v →
        (svc.getAll world).2 = Except.ok v)) ∧
    (world (httpClient.getRequest ("/" ++ svc.endpoint ++ "/" ++ toString id)) =
        FetchOutcome.response s st b →
      (∀ p, svc.schema.decode b = Except.error p →
        (svc.getById world id).2 = Except.error (ClientError.parse p)) ∧
      (∀ v, svc.schema.decode b = Except.ok v →
        (svc.getById world id).2 = Except.ok v)) ∧
    (world (httpClient.postRequest ("/" ++ svc.endpoint) payload) =
        FetchOutcome.response s st b →
      (∀ p, svc.schema.decode b = Except.error p →
        (svc.create world payload).2 = Except.error (ClientError.parse p)) ∧
      (∀ v, svc.schema.decode b = Except.ok v →
        (svc.create world payload).2 = Except.ok v)) := by
  refine ⟨?_, ?_, ?_⟩ <;> intro hw
  · constructor
    · intro p hp
      simp [BaseApiService.getAll, httpClient.get, hw,
        interpBody_ok _ _ _ _ hok, BaseApiService.decodeStep, hp]
    · intro v hv
      simp [BaseApiService.getAll, httpClient.get, hw,
        interpBody_ok _ _ _ _ hok, BaseApiService.decodeStep, hv]
  · constructor
    · intro p hp
      simp [BaseApiService.getById, httpClient.get, hw,
        interpBody_ok _ _ _ _ hok, BaseApiService.decodeStep, hp]
    · intro v hv
      simp [BaseApiService.getById, httpClient.get, hw,
        interpBody_ok _ _ _ _ hok, BaseApiService.decodeStep, hv]
  · constructor
    · intro p hp
      simp [BaseApiService.create, httpClient.post, hw,
        interpBody_ok _ _ _ _ hok, BaseApiService.decodeStep, hp]
    · intro v hv
      simp [BaseApiService.create, httpClient.post, hw,
        interpBody_ok _ _ _ _ hok, BaseApiService.decodeStep, hv]

/-- C5 witnessed at the `items` client: a 200 response whose body is a JSON
string fails `getAll` with the array schema's `ParseError`. -/
theorem C5_schema_decoding_witness :
    (itemsSvc.getAll okStrWorld).2 =
      Except.error (ClientError.parse ⟨"Expected ReadonlyArray, actual other"⟩) :=
  ((C5_schema_decoding itemsSvc okStrWorld 1 Json.null 200 "OK"
      (Json.str "nope") (by decide)).1 rfl).1 _ rfl

/-! ## C9 -/

/-- Helper: an ok response makes the void interpreter succeed regardless of
the body. -/
theorem interpVoid_ok (verb st : String) (s : Nat) (b : Json)
    (h : statusOk s = true) :
    httpClient.interpVoid verb (FetchOutcome.response s st b) = Except.ok () := by
  simp [httpClient.interpVoid, h]

/-- C9: `update` and `delete` apply no schema decoding — their failure type
is `ApiError` alone — and return void on every ok (2xx) response, whatever
the response body is. -/
theorem C9_void_operations {T : Type} (svc : BaseApiService T) (world : World)
    (id : Int) (payload : Json) (s : Nat) (st : String) (b : Json)
    (hok : statusOk s = true) :
    (world (httpClient.putRequest ("/" ++ svc.endpoint ++ "/" ++ toString id)
        payload) = FetchOutcome.response s st b →
      (svc.update world id payload).2 = Except.ok ()) ∧
    (world (httpClient.deleteRequest ("/" ++ svc.endpoint ++ "/" ++ toString id)) =
        FetchOutcome.response s st b →
      (svc.delete world id).2 = Except.ok ()) := by
  constructor <;> intro hw
  · simp [BaseApiService.update, httpClient.put, hw, interpVoid_ok _ _ _ _ hok]
  · simp [BaseApiService.delete, httpClient.delete, hw, interpVoid_ok _ _ _ _ hok]

/-- C9 witnessed at the `items` client: a 200 response with a JSON-string
body (which matches no schema here) still makes `update` succeed with void,
since no decoding happens. -/
theorem C9_void_operations_witness :
    (itemsSvc.update okStrWorld 1 Json.null).2 = Except.ok () :=
  (C9_void_operations itemsSvc okStrWorld 1 Json.null 200 "OK"
    (Json.str "nope") (by decide)).1 rfl

/-! ## C10 -/

/-- Whether an `Except` value is a success. -/
def exceptOk : Except ε α → Bool
  | Except.ok _ => true
  | Except.error _ => false

/-- Helper: elementwise decoding succeeds exactly when every element
decodes. -/
theorem decodeElems_ok_iff (s : Schema α) (xs : List Json) :
    exceptOk (decodeElems s xs) = true ↔
      ∀ x ∈ xs, exceptOk (s.decode x) = true := by
  induction xs with
  | nil => simp [decodeElems, exceptOk]
  | cons x l ih =>
    cases hdx : s.decode x with
    | error e => simp [decodeElems, hdx, exceptOk]
    | ok a =>
      cases hdl : decodeElems s l with
      | error e =>
        rw [hdl] at ih
        simp [decodeElems, hdx, hdl, exceptOk] at ih ⊢
        exact ih
      | ok as =>
        rw [hdl] at ih
        simp [decodeElems, hdx, hdl, exceptOk] at ih ⊢
        exact ih

/-- C10: the array schema stored by the constructor is exactly
`Schema.Array` of the entity schema supplied at construction, and decoding
under it succeeds precisely when the body is a JSON array each of whose
elements decodes under the entity schema. -/
theorem C10_array_schema {T : Type} (endpoint : String) (s : Schema T)
    (j : Json) :
    (BaseApiService.make endpoint s).arraySchema = Schema.Array s ∧
    (exceptOk ((BaseApiService.make endpoint s).arraySchema.decode j) = true ↔
      ∃ xs, j = Json.arr xs ∧ ∀ x ∈ xs, exceptOk (s.decode x) = true) := by
  refine ⟨rfl, ?_⟩
  show exceptOk ((Schema.Array s).decode j) = true ↔ _
  cases j with
  | arr xs =>
    simp only [Schema.Array]
    rw [decodeElems_ok_iff]
    constructor
    · intro h
      exact ⟨xs, rfl, h⟩
    · rintro ⟨ys, hy, h⟩
      cases hy
      exact h
  | null => simp [Schema.Array, exceptOk]
  | bool b => simp [Schema.Array, exceptOk]
  | num n => simp [Schema.Array, exceptOk]
  | str t => simp [Schema.Array, exceptOk]
  | obj fs => simp [Schema.Array, exceptOk]

/-- C10 witnessed at the `items` schema: the JSON body `[7]` decodes under
the constructed array schema. -/
theorem C10_array_schema_witness :
    exceptOk ((BaseApiService.make "items" intSchema).arraySchema.decode
      (Json.arr [Json.num 7])) = true :=
  (C10_array_schema "items" intSchema (Json.arr [Json.num 7])).2.mpr
    ⟨[Json.num 7], rfl, by
      intro x hx
      rw [List.mem_singleton] at hx
      subst hx
      rfl⟩

/-! ## Backend helper lemmas -/

/-- The largest key in the table (0 on an empty table). -/
def maxKey (db : Db) : Int := List.foldr (fun e m => max e.id m) 0 db

/-- Helper: every row's key is at most the table's largest key. -/
theorem le_maxKey (db : Db) : ∀ e ∈ db, e.id ≤ maxKey db := by
  induction db with
  | nil => intro e he; cases he
  | cons x l ih =>
    intro e he
    rcases List.mem_cons.mp he with h | h
    · subst h; exact le_max_left _ _
    · exact le_trans (ih e h) (le_max_right _ _)

/-- Helper: the generated key is fresh — no existing row carries it. -/
theorem entityExists_nextId (db : Db) : entityExists db (nextId db) = false := by
  rw [Bool.eq_false_iff]
  intro h
  obtain ⟨e, he, hid⟩ := List.any_eq_true.mp h
  have hle := le_maxKey db e he
  have hid' : e.id = nextId db := of_decide_eq_true hid
  have hnext : nextId db = maxKey db + 1 := rfl
  omega

/-- Helper: after deleting a key, no row with that key is found. -/
theorem findById_deleteRow (db : Db) (id : Int) :
    findById (deleteRow db id) id = none := by
  induction db with
  | nil => rfl
  | cons x l ih =>
    by_cases h : x.id = id <;>
      simp_all [deleteRow, findById, List.filter_cons, List.find?_cons, h]

/-! ## C2 -/

/-- C2 counterexample: with the row of key 1 present and `SaveChangesAsync`
raising `DbUpdateConcurrencyException`, `Put(1, entity)` reaches the
`throw;` branch: the exception propagates unhandled and no response (in
particular no conflict response — `ApiResult` has no conflict constructor
because the controller never builds one) is produced. -/
theorem C2_counterexample :
    (BaseController.put [⟨1, 0, "a"⟩] 1 ⟨1, 0, "b"⟩
        SaveOutcome.concurrencyConflict).result =
      ApiResult.unhandledException "DbUpdateConcurrencyException" ∧
    (BaseController.put [⟨1, 0, "a"⟩] 1 ⟨1, 0, "b"⟩
        SaveOutcome.concurrencyConflict).result.statusCode = none := by
  exact ⟨rfl, rfl⟩

/-- C2 amended: when saving a matching-id PUT raises a concurrency
conflict, the controller returns not-found when no entity with that id
exists, and otherwise rethrows — the exception propagates as an unhandled
exception; the controller never produces a conflict response. -/
theorem C2_amended (db : Db) (id : Int) (e : BaseEntity) (hid : id = e.id) :
    (entityExists db id = false →
      (BaseController.put db id e SaveOutcome.concurrencyConflict).result =
        ApiResult.notFound) ∧
    (entityExists db id = true →
      (BaseController.put db id e SaveOutcome.concurrencyConflict).result =
        ApiResult.unhandledException "DbUpdateConcurrencyException") := by
  subst hid
  constructor <;> intro h <;> simp [BaseController.put, h]

/-- C2 amended, witnessed on an empty table: the concurrency conflict on a
vanished entity yields not-found. -/
theorem C2_amended_witness :
    (BaseController.put [] 1 ⟨1, 0, "a"⟩
        SaveOutcome.concurrencyConflict).result = ApiResult.notFound :=
  (C2_amended [] 1 ⟨1, 0, "a"⟩ rfl).1 rfl

/-! ## C3 -/

/-- C3: a GET-by-id or DELETE for an absent id returns not-found, and a PUT
whose route id differs from the body entity's id — whatever the store
contains — returns bad-request and leaves the store unchanged. -/
theorem C3_not_found_and_bad_request (db : Db) (id : Int) (e : BaseEntity)
    (save : SaveOutcome) :
    (findById db id = none →
      (BaseController.getById db id).result = ApiResult.notFound ∧
      (BaseController.delete db id).result = ApiResult.notFound) ∧
    (id ≠ e.id →
      (BaseController.put db id e save).result = ApiResult.badRequest ∧
      (BaseController.put db id e save).db = db) := by
  constructor
  · intro habsent
    exact ⟨by simp [BaseController.getById, habsent],
      by simp [BaseController.delete, habsent]⟩
  · intro hmismatch
    exact ⟨by simp [BaseController.put, hmismatch],
      by simp [BaseController.put, hmismatch]⟩

/-- C3 witnessed at the empty table for the not-found part, and at a table
that does contain the route id 1 for the mismatched PUT (route id 1, body
id 2). -/
theorem C3_not_found_and_bad_request_witness :
    (BaseController.getById [] 1).result = ApiResult.notFound ∧
    (BaseController.put [⟨1, 0, "a"⟩] 1 ⟨2, 0, "b"⟩
      SaveOutcome.success).result = ApiResult.badRequest :=
  ⟨((C3_not_found_and_bad_request [] 1 ⟨2, 0, "b"⟩ SaveOutcome.success).1
      rfl).1,
   ((C3_not_found_and_bad_request [⟨1, 0, "a"⟩] 1 ⟨2, 0, "b"⟩
      SaveOutcome.success).2 (by decide)).1⟩

/-! ## C4 -/

/-- C4: POSTing an entity with an unset id stores it under the generated
key and returns 201 with the stored entity; a successful PUT and a DELETE
of an existing id return 204; and every response any of the five operations
returns carries one of the statuses 200, 201, 204, 400, 404 (a propagated
exception produces no controller response at all). -/
theorem C4_status_codes (db : Db) (id : Int) (e : BaseEntity)
    (save : SaveOutcome) :
    (e.id = 0 →
      (BaseController.post db e).result =
        ApiResult.created ("Get " ++ toString (nextId db))
          { e with id := nextId db }) ∧
    (id = e.id → save = SaveOutcome.success →
      (BaseController.put db id e save).result = ApiResult.noContent) ∧
    (∀ x, findById db id = some x →
      (BaseController.delete db id).result = ApiResult.noContent) ∧
    (∀ s, (BaseController.getAll db).result.statusCode = some s →
      s = 200 ∨ s = 201 ∨ s = 204 ∨ s = 400 ∨ s = 404) ∧
    (∀ s, (BaseController.getById db id).result.statusCode = some s →
      s = 200 ∨ s = 201 ∨ s = 204 ∨ s = 400 ∨ s = 404) ∧
    (∀ s, (BaseController.post db e).result.statusCode = some s →
      s = 200 ∨ s = 201 ∨ s = 204 ∨ s = 400 ∨ s = 404) ∧
    (∀ s, (BaseController.put db id e save).result.statusCode = some s →
      s = 200 ∨ s = 201 ∨ s = 204 ∨ s = 400 ∨ s = 404) ∧
    (∀ s, (BaseController.delete db id).result.statusCode = some s →
      s = 200 ∨ s = 201 ∨ s = 204 ∨ s = 400 ∨ s = 404) := by
  refine ⟨?_, ?_, ?_, ?_, ?_, ?_, ?_, ?_⟩
  · intro h0
    simp [BaseController.post, h0, entityExists_nextId db]
  · intro h1 h2
    subst h1; subst h2
    simp [BaseController.put]
  · intro x hx
    simp [BaseController.delete, hx]
  · intro s hs
    simp [BaseController.getAll, ApiResult.statusCode] at hs
    omega
  · intro s hs
    cases hfind : findById db id <;>
      simp [BaseController.getById, hfind, ApiResult.statusCode] at hs <;>
      omega
  · intro s hs
    by_cases h0 : e.id = 0
    · by_cases hex : entityExists db (nextId db) = true
      · simp [BaseController.post, h0, hex, ApiResult.statusCode] at hs
      · simp [BaseController.post, h0, hex, ApiResult.statusCode] at hs
        omega
    · by_cases hex : entityExists db e.id = true
      · simp [BaseController.post, h0, hex, ApiResult.statusCode] at hs
      · simp [BaseController.post, h0, hex, ApiResult.statusCode] at hs
        omega
  · intro s hs
    by_cases hm : id ≠ e.id
    · simp [BaseController.put, hm, ApiResult.statusCode] at hs
      omega
    · cases save with
      | success =>
        simp [BaseController.put, hm, ApiResult.statusCode] at hs
        omega
      | concurrencyConflict =>
        by_cases hex : entityExists db id = true
        · simp [BaseController.put, hm, hex, ApiResult.statusCode] at hs
        · simp [BaseController.put, hm, hex, ApiResult.statusCode] at hs
          omega
  · intro s hs
    cases hfind : findById db id <;>
      simp [BaseController.delete, hfind, ApiResult.statusCode] at hs <;>
      omega

/-- C4 witnessed on an empty table: POSTing an id-less entity yields 201
with the generated key 1. -/
theorem C4_status_codes_witness :
    (BaseController.post [] ⟨0, 0, "x"⟩).result =
      ApiResult.created "Get 1" ⟨1, 0, "x"⟩ :=
  (C4_status_codes [] 1 ⟨0, 0, "x"⟩ SaveOutcome.success).1 rfl

/-! ## C7 -/

/-- C7: a successful DELETE physically removes the row — the new table is
the old one with the key filtered out — and a subsequent GET of the same id
returns not-found. -/
theorem C7_delete_then_get (db : Db) (id : Int) (e : BaseEntity)
    (hstored : findById db id = some e) :
    (BaseController.delete db id).result = ApiResult.noContent ∧
    (BaseController.delete db id).db = deleteRow db id ∧
    (BaseController.getById (BaseController.delete db id).db id).result =
      ApiResult.notFound := by
  refine ⟨?_, ?_, ?_⟩ <;>
    simp [BaseController.delete, BaseController.getById, hstored,
      findById_deleteRow]

/-- C7 witnessed on the one-row table of key 1. -/
theorem C7_delete_then_get_witness :
    (BaseController.getById (BaseController.delete [⟨1, 0, "a"⟩] 1).db
      1).result = ApiResult.notFound :=
  (C7_delete_then_get [⟨1, 0, "a"⟩] 1 ⟨1, 0, "a"⟩ rfl).2.2

/-! ## C8 -/

/-- C8: deleting an absent id returns not-found without ever invoking a
save, and a mismatched-id PUT — whatever the store contains — returns
bad-request without marking any entity modified or saving; both error
branches leave the table unchanged. -/
theorem C8_error_branches_pure (db : Db) (id : Int) (e : BaseEntity)
    (save : SaveOutcome) :
    (findById db id = none →
      (BaseController.delete db id).result = ApiResult.notFound ∧
      (BaseController.delete db id).saves = 0 ∧
      (BaseController.delete db id).db = db) ∧
    (id ≠ e.id →
      (BaseController.put db id e save).result = ApiResult.badRequest ∧
      (BaseController.put db id e save).marksModified = 0 ∧
      (BaseController.put db id e save).saves = 0 ∧
      (BaseController.put db id e save).db = db) := by
  constructor
  · intro habsent
    refine ⟨?_, ?_, ?_⟩ <;> simp [BaseController.delete, habsent]
  · intro hmismatch
    refine ⟨?_, ?_, ?_, ?_⟩ <;> simp [BaseController.put, hmismatch]

/-- C8 witnessed at the empty table for the delete part, and at a table
that does contain the route id 1 for the mismatched PUT (route id 1, body
id 2). -/
theorem C8_error_branches_pure_witness :
    (BaseController.delete [] 1).saves = 0 ∧
    (BaseController.put [⟨1, 0, "a"⟩] 1 ⟨2, 0, "b"⟩
      SaveOutcome.success).saves = 0 :=
  ⟨((C8_error_branches_pure [] 1 ⟨2, 0, "b"⟩ SaveOutcome.success).1
      rfl).2.1,
   ((C8_error_branches_pure [⟨1, 0, "a"⟩] 1 ⟨2, 0, "b"⟩
      SaveOutcome.success).2 (by decide)).2.2.1⟩

/-! ## C6 -/

/-- C6 counterexample: the frontend client's base URL is the fixed source
constant `http://localhost:5000/api`; it is unchanged even under a
configuration that assigns `http://example.com/api` to every key, so it is
not read from externalized configuration. -/
theorem C6_counterexample :
    frontendBaseUrl overrideCfg = "http://localhost:5000/api" ∧
    frontendBaseUrl emptyCfg = "http://localhost:5000/api" ∧
    overrideCfg "ApiBaseUrl" = some "http://example.com/api" ∧
    httpClient.BASE_URL = "http://localhost:5000/api" := by
  exact ⟨rfl, rfl, rfl, rfl⟩

/-- C6 amended: the backend's connection string and allowed-origin URL are
read from configuration (with hardcoded fallbacks `Data Source=budget.db`
and `http://localhost:5173` when the keys are absent), while the frontend
client's base URL is the fixed constant `BASE_URL` regardless of any
configuration. -/
theorem C6_amended (cfg : Configuration) (v : String) :
    (cfg "ConnectionStrings:DefaultConnection" = some v →
      getConnectionString cfg = v) ∧
    (cfg "ConnectionStrings:DefaultConnection" = none →
      getConnectionString cfg = "Data Source=budget.db") ∧
    (cfg "FrontendUrl" = some v → getFrontendUrl cfg = v) ∧
    (cfg "FrontendUrl" = none → getFrontendUrl cfg = "http://localhost:5173") ∧
    frontendBaseUrl cfg = httpClient.BASE_URL := by
  refine ⟨?_, ?_, ?_, ?_, rfl⟩ <;>
    intro h <;> simp [getConnectionString, getFrontendUrl, h]

/-- C6 amended, witnessed at the all-overriding and the empty
configuration. -/
theorem C6_amended_witness :
    getConnectionString overrideCfg = "http://example.com/api" ∧
    getFrontendUrl emptyCfg = "http://localhost:5173" :=
  ⟨(C6_amended overrideCfg "http://example.com/api").1 rfl,
   (C6_amended emptyCfg "http://example.com/api").2.2.2.1 rfl⟩
